import Mathlib

/-!
Verification development for the wicked object-model registry and
configuration-parsing subsystem (src/dbus-objects/model.c and src/config.c).

The C code is shallowly embedded: each C function becomes an executable Lean
definition over explicit state; external collaborators (the dbus transport,
the XML reader, `ni_mkstemp`, `xpath_format_parse`, `ni_address_parse`,
name-to-type mapping tables, ...) are passed in as parameters or modelled
from the specification where noted. A fatal `ni_assert` is modelled as the
function returning `none`; an ordinary error return (`FALSE` / `-1`) is a
normal value, so "the process is not terminated" corresponds to the function
being total on that path.
-/

namespace Wicked

/-- A dbus class descriptor (`ni_dbus_class_t`): `name` models the C
`const char *` pointer (`none` = NULL), and the optional superclass pointer
forms a finite chain, as in model.c's `class->superclass` walk. -/
inductive NiDbusClass where
  | root (name : Option String)
  | child (name : Option String) (superclass : NiDbusClass)
deriving DecidableEq, Repr

/-- The `name` field of a class descriptor. -/
def NiDbusClass.name : NiDbusClass → Option String
  | .root n => n
  | .child n _ => n

/-- The `superclass` field of a class descriptor (`none` = NULL). -/
def NiDbusClass.superclass : NiDbusClass → Option NiDbusClass
  | .root _ => none
  | .child _ s => some s

/-- The list of classes visited by the C loop
`for (class = c; class; class = class->superclass)`: the class itself
followed by all its ancestors. -/
def classChain : NiDbusClass → List NiDbusClass
  | .root n => [.root n]
  | .child n s => .child n s :: classChain s

/-- A dbus service descriptor (`ni_dbus_service_t`), restricted to the
fields the binding logic reads: `name` and the `compatible` class pointer
(`none` = NULL). -/
structure NiDbusService where
  name : String
  compatible : Option NiDbusClass
deriving DecidableEq, Repr

/-- A dbus object (`ni_dbus_object_t`): path, class pointer (`none` = NULL)
and the services attached to it so far. -/
structure NiDbusObject where
  path : String
  objClass : Option NiDbusClass
  services : List NiDbusService
deriving DecidableEq, Repr

/-- Modelled from the spec: `ni_dbus_object_register_service` (IPC layer,
not under src/) attaches a service to an object's attached-service set;
modelled as appending to the object's service list. -/
def ni_dbus_object_register_service (obj : NiDbusObject) (s : NiDbusService) : NiDbusObject :=
  { obj with services := obj.services ++ [s] }

/-- The inner loop of `ni_objectmodel_bind_compatible_interfaces`:
walk the chain and stop at the first class equal to `service->compatible`
(the C loop breaks on the first match). -/
def serviceCompatibleMatch (service : NiDbusService) : List NiDbusClass → Bool
  | [] => false
  | c :: rest =>
    if service.compatible = some c then true else serviceCompatibleMatch service rest

/-- Result of a binding pass: the C return value, the updated object, and
the `ni_error` messages emitted. -/
structure BindResult where
  ok : Bool
  object : NiDbusObject
  errors : List String
deriving Repr

/-- `ni_objectmodel_bind_compatible_interfaces` (model.c:112-139): fail with
an error when the object has no class; otherwise, for every service of the
registry in order, attach it when its `compatible` class occurs in the
object's superclass chain. -/
def ni_objectmodel_bind_compatible_interfaces
    (registry : List NiDbusService) (obj : NiDbusObject) : BindResult :=
  match obj.objClass with
  | none => { ok := false, object := obj, errors := [obj.path ++ ": object without class"] }
  | some cls =>
    let obj2 := registry.foldl
      (fun o service =>
        if serviceCompatibleMatch service (classChain cls) then
          ni_dbus_object_register_service o service
        else o)
      obj
    { ok := true, object := obj2, errors := [] }

/-- Capacity of the service registry (model.c:31). -/
def NI_DBUS_SERVICES_MAX : Nat := 128

/-- Capacity of the class registry (model.c:37). -/
def NI_DBUS_CLASSES_MAX : Nat := 1024

/-- `ni_objectmodel_register_class` (model.c:190-200): `ni_assert` that the
name pointer is non-NULL and that the table is not full, then append.
A failed assertion terminates the process, modelled as `none`. -/
def ni_objectmodel_register_class
    (registry : List NiDbusClass) (c : NiDbusClass) : Option (List NiDbusClass) :=
  if c.name = none then none
  else if registry.length < NI_DBUS_CLASSES_MAX then some (registry ++ [c])
  else none

/-- `ni_objectmodel_register_service` (model.c:144-153): `ni_assert` only
that the table is not full, then append; there is no name check. -/
def ni_objectmodel_register_service
    (registry : List NiDbusService) (s : NiDbusService) : Option (List NiDbusService) :=
  if registry.length < NI_DBUS_SERVICES_MAX then some (registry ++ [s])
  else none

/-- `ni_objectmodel_get_class` (model.c:202-214): linear scan, first
name match wins. -/
def ni_objectmodel_get_class (registry : List NiDbusClass) (name : String) : Option NiDbusClass :=
  registry.find? (fun c => c.name = some name)

/-- `ni_objectmodel_service_by_name` (model.c:155-168). -/
def ni_objectmodel_service_by_name
    (registry : List NiDbusService) (name : String) : Option NiDbusService :=
  registry.find? (fun s => s.name = name)

/-! ## Asynchronous extension dispatch (model.c:288-432) -/

/-- A dbus message sent back over the connection: either a method return
(`dbus_message_new_method_return`) or an error reply
(`dbus_message_new_error`) with its error name and message text. -/
inductive DbusReply where
  | methodReturn
  | errorReply (errname : String) (message : String)
deriving DecidableEq, Repr

/-- `DBUS_ERROR_FAILED`. -/
def DBUS_ERROR_FAILED : String := "org.freedesktop.DBus.Error.Failed"

/-- `DBUS_ERROR_SERVICE_UNKNOWN`. -/
def DBUS_ERROR_SERVICE_UNKNOWN : String := "org.freedesktop.DBus.Error.ServiceUnknown"

/-- Modelled from the spec: `ni_process_exit_status_okay` (process facility,
not under src/) reports success exactly when the subprocess exit status is
zero. -/
def ni_process_exit_status_okay (exitStatus : Nat) : Bool :=
  exitStatus == 0

/-- The state a completion callback sees and updates: the temporary files
currently present on disk and the replies sent over the connection so far. -/
structure CompletionState where
  files : List String
  sentReplies : List DbusReply
deriving DecidableEq, Repr

/-- `ni_objectmodel_extension_completion` (model.c:411-432): build a method
return on a zero exit status, or an error reply with the fixed message
otherwise, and send it over the connection exactly once. The function does
not touch the filesystem (it contains no `unlink`), so `files` is carried
through unchanged. -/
def ni_objectmodel_extension_completion
    (exitStatus : Nat) (st : CompletionState) : Bool × CompletionState :=
  let reply :=
    if ni_process_exit_status_okay exitStatus then DbusReply.methodReturn
    else DbusReply.errorReply DBUS_ERROR_FAILED "dbus extension script returns error"
  (true, { st with sentReplies := st.sentReplies ++ [reply] })

/-- Outcomes of the external calls performed by
`ni_objectmodel_extension_call`, passed in as parameters. Modelled from the
spec where the callee is not under src/: `ni_config_find_extension` and
`ni_extension_script_find` resolve the interface and method
(`hasExtension`, `hasScript`); `dbus_message_marshal` may fail
(`marshalOk`); each `ni_mkstemp` call either creates a uniquely named file
or fails (`mkstemp1`, `mkstemp2`); `ni_file_write` may fail (`write1Ok`);
`ni_dbus_async_server_call_run_command` may fail to launch (`runOk`). -/
structure ExtCallWorld where
  hasExtension : Bool
  hasScript : Bool
  marshalOk : Bool
  mkstemp1 : Option String
  write1Ok : Bool
  mkstemp2 : Option String
  runOk : Bool
deriving DecidableEq, Repr

/-- State threaded through one dispatch: files present on disk, environment
variables set on the process instance, replies sent, and whether the
subprocess was launched. -/
structure ExtCallState where
  files : List String
  env : List (String × String)
  sentReplies : List DbusReply
  launched : Bool
deriving DecidableEq, Repr

/-- `__ni_objectmodel_write_message` (model.c:291-319): marshal the call,
create a temp file and write the blob to it. On marshal or mkstemp failure
nothing is created; on write failure the freshly created file is unlinked
and NULL is returned. Returns the temp file name (NULL = `none`) and the
updated set of on-disk files. -/
def __ni_objectmodel_write_message
    (marshalOk : Bool) (mkstemp : Option String) (writeOk : Bool)
    (files : List String) : Option String × List String :=
  if marshalOk = false then (none, files)
  else
    match mkstemp with
    | none => (none, files)
    | some tempname =>
      let files2 := files ++ [tempname]
      if writeOk then (some tempname, files2)
      else (none, files2.erase tempname)

/-- `__ni_objectmodel_empty_tempfile` (model.c:321-334): create an empty
temp file, returning its name, or NULL on failure. -/
def __ni_objectmodel_empty_tempfile
    (mkstemp : Option String) (files : List String) : Option String × List String :=
  match mkstemp with
  | none => (none, files)
  | some tempname => (some tempname, files ++ [tempname])

/-- `ni_objectmodel_extension_call` (model.c:336-409). The control flow is
translated branch for branch; note that on both `goto general_failure`
paths the local `tempname` is NULL (either the failed call returned NULL,
or the name was already consumed by `ni_string_free` right after the
`setenv`), so the `if (tempname) unlink(tempname)` cleanup at the label
never removes anything. -/
def ni_objectmodel_extension_call
    (w : ExtCallWorld) (st : ExtCallState) : Bool × ExtCallState :=
  if w.hasExtension = false then
    (false, { st with sentReplies := st.sentReplies ++
        [.errorReply DBUS_ERROR_SERVICE_UNKNOWN "no/unknown interface"] })
  else if w.hasScript = false then
    (false, { st with sentReplies := st.sentReplies ++
        [.errorReply DBUS_ERROR_FAILED "no/unknown extension method"] })
  else
    let r1 := __ni_objectmodel_write_message w.marshalOk w.mkstemp1 w.write1Ok st.files
    match r1 with
    | (none, files1) =>
      (false, { st with files := files1, sentReplies := st.sentReplies ++
          [.errorReply DBUS_ERROR_FAILED "general failure when executing method"] })
    | (some argfile, files1) =>
      let env1 := st.env ++ [("WICKED_ARGFILE", argfile)]
      let r2 := __ni_objectmodel_empty_tempfile w.mkstemp2 files1
      match r2 with
      | (none, files2) =>
        (false, { st with files := files2, env := env1, sentReplies := st.sentReplies ++
            [.errorReply DBUS_ERROR_FAILED "general failure when executing method"] })
      | (some retfile, files2) =>
        let env2 := env1 ++ [("WICKED_RETFILE", retfile)]
        if w.runOk = false then
          (false, { st with files := files2, env := env2, sentReplies := st.sentReplies ++
              [.errorReply DBUS_ERROR_FAILED "error executing method"] })
        else
          (true, { st with files := files2, env := env2, launched := true })

/-! ## Configuration parsing (src/config.c) -/

/-- An XML node as exposed by the external XML reader: element name,
attribute list, character data (`none` = NULL `cdata`) and children. -/
inductive XmlNode where
  | mk (name : String) (attrs : List (String × String)) (cdata : Option String)
       (children : List XmlNode)

/-- Element name of an XML node. -/
def XmlNode.name : XmlNode → String
  | .mk n _ _ _ => n

/-- Attribute list of an XML node. -/
def XmlNode.attrs : XmlNode → List (String × String)
  | .mk _ a _ _ => a

/-- Character data of an XML node. -/
def XmlNode.cdata : XmlNode → Option String
  | .mk _ _ c _ => c

/-- Children of an XML node. -/
def XmlNode.children : XmlNode → List XmlNode
  | .mk _ _ _ c => c

/-- `xml_node_get_attr`: first attribute of the given name, or NULL. -/
def xml_node_get_attr (node : XmlNode) (name : String) : Option String :=
  (node.attrs.find? (fun p => p.1 = name)).map Prod.snd

/-- `xml_node_get_child`: first child element of the given name, or NULL. -/
def xml_node_get_child (node : XmlNode) (name : String) : Option XmlNode :=
  node.children.find? (fun c => c.name = name)

/-- Value of one character as a digit, as `strtol` reads it (0-9, a-z, A-Z). -/
def digitValue (c : Char) : Option Nat :=
  if c.isDigit then some (c.toNat - 48)
  else if c ≥ 'a' ∧ c ≤ 'z' then some (c.toNat - 97 + 10)
  else if c ≥ 'A' ∧ c ≤ 'Z' then some (c.toNat - 65 + 10)
  else none

/-- Accumulate digits in the given base, stopping at the first character
that is not a valid digit of that base. -/
def strtolAccum (base : Nat) : List Char → Nat → Nat
  | [], acc => acc
  | c :: rest, acc =>
    match digitValue c with
    | some d => if d < base then strtolAccum base rest (acc * base + d) else acc
    | none => acc

/-- C `strtol(s, NULL, 0)` on a well-formed token: skip whitespace, read an
optional sign, detect a `0x`/`0` base prefix, then accumulate digits.
Overflow saturation at LONG_MAX is not modelled (the configuration values
of interest are small). -/
def ni_strtol (s : String) : Int :=
  let cs := s.toList.dropWhile (fun c => c.isWhitespace)
  let signed : Bool × List Char :=
    match cs with
    | '-' :: rest => (true, rest)
    | '+' :: rest => (false, rest)
    | _ => (false, cs)
  let based : Nat × List Char :=
    match signed.2 with
    | '0' :: 'x' :: rest => (16, rest)
    | '0' :: 'X' :: rest => (16, rest)
    | '0' :: rest => (8, rest)
    | _ => (10, signed.2)
  let n := strtolAccum based.1 based.2 0
  if signed.1 then -(n : Int) else (n : Int)

/-- C `strtoul(s, NULL, 0)`: same scan, with the value converted to
`unsigned long` (wrap-around modulo 2^64). -/
def ni_strtoul (s : String) : Nat :=
  ((ni_strtol s) % ((2 : Int) ^ 64)).toNat

/-- `~0` as a C `unsigned int` (all 32 bits set). -/
def UINT_ALL_BITS : Nat := 2 ^ 32 - 1

/-- The loop body of `ni_config_parse_update_targets` (config.c:231-245):
`<all>` sets the mask to `~0`, `<none>` clears it, a recognized target
name (mapped to a nonnegative index by the external
`ni_addrconf_name_to_update_target`, passed as `nameToTarget`) ORs in that
one bit, and an unrecognized name is skipped with a warning. The
accumulator carries the mask and the warnings emitted. -/
def updateTargetStep (nameToTarget : String → Int)
    (acc : Nat × List String) (child : XmlNode) : Nat × List String :=
  if child.name = "all" then (UINT_ALL_BITS, acc.2)
  else if child.name = "none" then (0, acc.2)
  else
    let target := nameToTarget child.name
    if 0 ≤ target then (acc.1 ||| (1 <<< target.toNat), acc.2)
    else (acc.1, acc.2 ++ ["ignoring unknown addrconf update target " ++ child.name])

/-- `ni_config_parse_update_targets` (config.c:226-247): fold
`updateTargetStep` over the element's children, starting from the caller's
mask with no warnings; the C function always returns 0, so it is total. -/
def ni_config_parse_update_targets
    (nameToTarget : String → Int) (node : XmlNode) (mask0 : Nat) : Nat × List String :=
  node.children.foldl (updateTargetStep nameToTarget) (mask0, [])

/-- One DHCP server preference (`ni_server_preference_t`): the parsed
server address (kept as the source string once `ni_address_parse`
accepted it) and the signed weight. -/
structure NiServerPreference where
  address : String
  weight : Int
deriving DecidableEq, Repr

/-- `struct ni_config_dhcp`, restricted to the fields config.c touches.
`preferred_server.length` plays the role of `num_preferred_servers`. -/
structure NiConfigDhcp where
  vendor_class : Option String
  lease_time : Nat
  ignore_servers : List String
  preferred_server : List NiServerPreference
  allow_update : Nat
deriving DecidableEq, Repr

/-- Modelled from the spec: `NI_DHCP_SERVER_PREFERENCES_MAX` is declared in
a header that is not under src/; the spec describes it as a fixed
implementation-defined cap on the number of `<prefer-server>` entries.
The theorems below do not depend on the particular value. -/
def NI_DHCP_SERVER_PREFERENCES_MAX : Nat := 16

/-- The weight computation for one `<prefer-server>` element
(config.c:203-218): default 100; `"always"` yields 100, `"never"` yields
-1, any other token is read with `strtol` and clamped to 100 from above
with a warning. Returns the weight and the warnings emitted. -/
def dhcpPreferWeight : Option String → Int × List String
  | none => (100, [])
  | some attrval =>
    if attrval = "always" then (100, [])
    else if attrval = "never" then (-1, [])
    else
      let w := ni_strtol attrval
      if 100 < w then
        (100, ["preferred dhcp server weight exceeds max, clamping to 100"])
      else (w, [])

/-- One iteration of the child loop of `ni_config_parse_addrconf_dhcp`
(config.c:177-222). `parseAddr` is the external `ni_address_parse`
(`true` = success); `nameToTarget` is passed through to the update-target
parser. `none` models `return -1`. -/
def dhcpChildStep
    (parseAddr : String → Bool) (nameToTarget : String → Int)
    (dhcp : NiConfigDhcp) (warns : List String) (child : XmlNode) :
    Option (NiConfigDhcp × List String) :=
  if child.name = "vendor-class" then
    some ({ dhcp with vendor_class := child.cdata }, warns)
  else if child.name = "lease-time" then
    match child.cdata with
    | some cd => some ({ dhcp with lease_time := ni_strtoul cd }, warns)
    | none => some (dhcp, warns)
  else if child.name = "ignore-server" then
    match xml_node_get_attr child "ip" with
    | some ip => some ({ dhcp with ignore_servers := dhcp.ignore_servers ++ [ip] }, warns)
    | none => some (dhcp, warns)
  else if child.name = "prefer-server" then
    match xml_node_get_attr child "ip" with
    | none => some (dhcp, warns)
    | some ip =>
      if NI_DHCP_SERVER_PREFERENCES_MAX ≤ dhcp.preferred_server.length then
        some (dhcp, warns ++ ["config: too many prefer-server elements"])
      else if parseAddr ip = false then none
      else
        let wres := dhcpPreferWeight (xml_node_get_attr child "weight")
        some ({ dhcp with preferred_server :=
                  dhcp.preferred_server ++ [{ address := ip, weight := wres.1 }] },
              warns ++ wres.2)
  else if child.name = "allow-update" then
    let r := ni_config_parse_update_targets nameToTarget child dhcp.allow_update
    some ({ dhcp with allow_update := r.1 }, warns ++ r.2)
  else
    some (dhcp, warns)

/-- The child loop of `ni_config_parse_addrconf_dhcp`, threading the dhcp
state and the warnings; `none` models `return -1`. -/
def dhcpGo (parseAddr : String → Bool) (nameToTarget : String → Int) :
    List XmlNode → NiConfigDhcp → List String → Option (NiConfigDhcp × List String)
  | [], dhcp, warns => some (dhcp, warns)
  | child :: rest, dhcp, warns =>
    match dhcpChildStep parseAddr nameToTarget dhcp warns child with
    | none => none
    | some (d2, w2) => dhcpGo parseAddr nameToTarget rest d2 w2

/-- `ni_config_parse_addrconf_dhcp` (config.c:172-224). -/
def ni_config_parse_addrconf_dhcp
    (parseAddr : String → Bool) (nameToTarget : String → Int)
    (dhcp : NiConfigDhcp) (node : XmlNode) : Option (NiConfigDhcp × List String) :=
  dhcpGo parseAddr nameToTarget node.children dhcp []

/-- The dhcp sub-config as `ni_config_new` (config.c:31-50) leaves it:
calloc zeroes everything, then `allow_update` is set to `~0`. -/
def dhcpDefault : NiConfigDhcp :=
  { vendor_class := none, lease_time := 0, ignore_servers := []
  , preferred_server := [], allow_update := UINT_ALL_BITS }

/-! ### Extension configuration (config.c:282-392)

`xpath_format_parse` is an external collaborator; a parsed `xpath_format_t`
is modelled as the `String` the external parser returned it for, and the
parser itself is a parameter `xp : String → Option String` (`none` = parse
error, making `ni_config_parse_xpath` return -1). -/

/-- One `ni_script_action_t`: name and optional parsed command expression
(absence of the `command` attribute is legal and leaves it NULL). -/
structure NiScriptAction where
  name : String
  command : Option String
deriving DecidableEq, Repr

/-- One `ni_extension_t` as built by `ni_config_parse_extensions`. -/
structure NiExtension where
  name : String
  etype : Int
  supported_af : Nat
  pid_file_path : Option String
  actions : List NiScriptAction
  environment : List String
deriving DecidableEq, Repr

/-- Modelled from the spec: the IPv4 address-family mask bit (header not
under src/); only distinctness from the IPv6 bit matters. -/
def NI_AF_MASK_IPV4 : Nat := 1

/-- Modelled from the spec: the IPv6 address-family mask bit. -/
def NI_AF_MASK_IPV6 : Nat := 2

/-- The `family` attribute scan (config.c:327-341): `strtok` over commas
(empty tokens are skipped by strtok), ORing in the mask of each recognized
token. -/
def familyMask (attrval : String) : Nat :=
  ((attrval.splitOn ",").filter (fun s => s ≠ "")).foldl
    (fun m s =>
      let m2 := if s = "ipv4" then m ||| NI_AF_MASK_IPV4 else m
      if s = "ipv6" then m2 ||| NI_AF_MASK_IPV6 else m2)
    0

/-- The `action`/`environment` child loop of one extension node
(config.c:349-374); `none` models `return -1` (missing `name` on an action,
missing `putenv` on an environment element, or an xpath parse error). -/
def extParseChildren (xp : String → Option String) :
    List XmlNode → NiExtension → Option NiExtension
  | [], ext => some ext
  | child :: rest, ext =>
    if child.name = "action" then
      match xml_node_get_attr child "name" with
      | none => none
      | some aname =>
        match xml_node_get_attr child "command" with
        | none =>
          extParseChildren xp rest
            { ext with actions := ext.actions ++ [{ name := aname, command := none }] }
        | some cmd =>
          match xp cmd with
          | none => none
          | some fmt =>
            extParseChildren xp rest
              { ext with actions := ext.actions ++ [{ name := aname, command := some fmt }] }
    else if child.name = "environment" then
      match xml_node_get_attr child "putenv" with
      | none => none
      | some pe =>
        match xp pe with
        | none => none
        | some fmt =>
          extParseChildren xp rest { ext with environment := ext.environment ++ [fmt] }
    else extParseChildren xp rest ext

/-- Building one extension after name and type are settled
(config.c:325-374): family mask, optional pidfile expression, then the
child loop. -/
def extParseOne (xp : String → Option String)
    (node : XmlNode) (name : String) (etype : Int) : Option NiExtension :=
  let af :=
    match xml_node_get_attr node "family" with
    | some a => familyMask a
    | none => UINT_ALL_BITS
  let ext : NiExtension :=
    { name := name, etype := etype, supported_af := af
    , pid_file_path := none, actions := [], environment := [] }
  let withPid : Option NiExtension :=
    match xml_node_get_child node "pidfile" with
    | some pc =>
      match xml_node_get_attr pc "path" with
      | some pv =>
        match xp pv with
        | none => none
        | some fmt => some { ext with pid_file_path := some fmt }
      | none => some ext
    | none => some ext
  match withPid with
  | none => none
  | some e => extParseChildren xp node.children e

/-- The extension-node loop of `ni_config_parse_extensions`
(config.c:293-375): non-`extension` elements are skipped; a missing `name`
attribute fails the load; when a type mapping is required, a missing `type`
attribute fails the load and an unrecognized type (mapped below 0) skips
that one extension with a warning. -/
def extParseNodes (xp : String → Option String) (mapType : Option (String → Int)) :
    List XmlNode → List NiExtension → Option (List NiExtension)
  | [], acc => some acc
  | node :: rest, acc =>
    if node.name ≠ "extension" then extParseNodes xp mapType rest acc
    else
      match xml_node_get_attr node "name" with
      | none => none
      | some name =>
        match mapType with
        | none =>
          match extParseOne xp node name 0 with
          | none => none
          | some ext => extParseNodes xp mapType rest (acc ++ [ext])
        | some mt =>
          match xml_node_get_attr node "type" with
          | none => none
          | some tv =>
            if mt tv < 0 then extParseNodes xp mapType rest acc
            else
              match extParseOne xp node name (mt tv) with
              | none => none
              | some ext => extParseNodes xp mapType rest (acc ++ [ext])

/-- `ni_config_parse_extensions` (config.c:282-378): find the category
child (`addrconf`/`linktype`/`api`); when absent the extension list is
returned unchanged, otherwise its children are processed in order. -/
def ni_config_parse_extensions (xp : String → Option String)
    (mapType : Option (String → Int)) (list : List NiExtension)
    (node : XmlNode) (exclass : String) : Option (List NiExtension) :=
  match xml_node_get_child node exclass with
  | none => some list
  | some sub => extParseNodes xp mapType sub.children list

/-! ### The whole configuration object (config.c:31-170) -/

/-- `ni_afinfo_t`, restricted to the fields config.c touches. -/
structure NiAfInfo where
  family : Nat
  enabled : Bool
  forwarding : Bool
deriving DecidableEq, Repr

/-- `ni_config_fslocation_t`. -/
structure NiConfigFsLocation where
  path : Option String
  mode : Nat
deriving DecidableEq, Repr

/-- `ni_config_t`, restricted to the fields config.c touches. The C fields
`default_syntax`/`default_syntax_path` are named `default_schema`/
`default_schema_path` here. -/
structure NiConfig where
  ipv4 : NiAfInfo
  ipv6 : NiAfInfo
  pidfile : NiConfigFsLocation
  socket : NiConfigFsLocation
  default_schema : Option String
  default_schema_path : Option String
  default_allow_update : Nat
  dhcp : NiConfigDhcp
  ibft_allow_update : Nat
  autoip_allow_update : Nat
  recv_max : Nat
  addrconf_extensions : List NiExtension
  linktype_extensions : List NiExtension
  api_extensions : List NiExtension
deriving DecidableEq, Repr

/-- `ni_config_new` (config.c:31-50): calloc zeroes everything, then the
address families are enabled (AF_INET = 2, AF_INET6 = 10), the four
allow-update masks are set to `~0` and `recv_max` to 64 KiB. -/
def ni_config_new : NiConfig :=
  { ipv4 := { family := 2, enabled := true, forwarding := false }
  , ipv6 := { family := 10, enabled := true, forwarding := false }
  , pidfile := { path := none, mode := 0 }
  , socket := { path := none, mode := 0 }
  , default_schema := none
  , default_schema_path := none
  , default_allow_update := UINT_ALL_BITS
  , dhcp := dhcpDefault
  , ibft_allow_update := UINT_ALL_BITS
  , autoip_allow_update := UINT_ALL_BITS
  , recv_max := 64 * 1024
  , addrconf_extensions := []
  , linktype_extensions := []
  , api_extensions := [] }

/-- `ni_config_parse_afinfo` (config.c:249-265); it always returns 0, so it
is total. -/
def ni_config_parse_afinfo (afi : NiAfInfo) (afname : String) (node : XmlNode) : NiAfInfo :=
  match xml_node_get_child node afname with
  | none => afi
  | some sub =>
    let afi2 :=
      if (xml_node_get_child sub "enabled").isSome then { afi with enabled := true }
      else if (xml_node_get_child sub "disabled").isSome then { afi with enabled := false }
      else afi
    if (xml_node_get_child sub "forwarding").isSome then { afi2 with forwarding := true }
    else afi2

/-- `ni_config_parse_fslocation` (config.c:267-280); `ni_parse_int` is the
external integer reader, modelled with the strtoul scan. Always returns 0. -/
def ni_config_parse_fslocation
    (fsloc : NiConfigFsLocation) (name : String) (node : XmlNode) : NiConfigFsLocation :=
  match xml_node_get_child node name with
  | none => fsloc
  | some sub =>
    let fsloc2 :=
      match xml_node_get_attr sub "path" with
      | some p => { fsloc with path := some p }
      | none => fsloc
    match xml_node_get_attr sub "mode" with
    | some m => { fsloc2 with mode := ni_strtoul m }
    | none => fsloc2

/-- The external collaborators `ni_config_parse` depends on, passed as one
record: the xpath expression parser, `ni_address_parse`,
`ni_addrconf_name_to_update_target`, the two name-to-type mapping tables
and `ni_system_update_capabilities`. -/
structure ConfigExternals where
  xp : String → Option String
  parseAddr : String → Bool
  nameToUpdateTarget : String → Int
  addrconfNameToType : String → Int
  linktypeNameToType : String → Int
  systemUpdateCaps : Nat

/-- The `<addrconf>` child loop of `ni_config_parse` (config.c:104-115):
`default-allow-update` updates the default mask (its parser cannot fail),
a `dhcp` element runs the dhcp parser and any failure aborts the load. -/
def parseAddrconfSection (ext : ConfigExternals) :
    List XmlNode → NiConfig → Option NiConfig
  | [], conf => some conf
  | child :: rest, conf =>
    let conf2 :=
      if child.name = "default-allow-update" then
        { conf with default_allow_update :=
            (ni_config_parse_update_targets ext.nameToUpdateTarget child
              conf.default_allow_update).1 }
      else conf
    if child.name = "dhcp" then
      match ni_config_parse_addrconf_dhcp ext.parseAddr ext.nameToUpdateTarget
              conf2.dhcp child with
      | none => none
      | some (d, _) => parseAddrconfSection ext rest { conf2 with dhcp := d }
    else parseAddrconfSection ext rest conf2

/-- The first half of `ni_config_parse` (config.c:83-115): the fresh
config object with the fixed pidfile/socket modes (0644/0600), the
address-family, fslocation and backend sections (which cannot fail), then
the `<addrconf>` child loop, whose dhcp parser can abort the load. -/
def configHeadPhase (ext : ConfigExternals) (node : XmlNode) : Option NiConfig :=
  let conf := ni_config_new
  let conf := { conf with pidfile := { conf.pidfile with mode := 420 } }
  let conf := { conf with socket := { conf.socket with mode := 384 } }
  let conf := { conf with ipv4 := ni_config_parse_afinfo conf.ipv4 "ipv4" node }
  let conf := { conf with ipv6 := ni_config_parse_afinfo conf.ipv6 "ipv6" node }
  let conf := { conf with pidfile := ni_config_parse_fslocation conf.pidfile "pidfile" node }
  let conf := { conf with socket := ni_config_parse_fslocation conf.socket "socket" node }
  let conf :=
    match xml_node_get_child node "backend" with
    | some b =>
      let c2 :=
        match xml_node_get_attr b "schema" with
        | some v => { conf with default_schema := some v }
        | none => conf
      match xml_node_get_attr b "path" with
      | some v => { c2 with default_schema_path := some v }
      | none => c2
    | none => conf
  match xml_node_get_child node "addrconf" with
  | some ac => parseAddrconfSection ext ac.children conf
  | none => some conf

/-- The second half of `ni_config_parse` (config.c:117-123): intersect the
default update mask with the system capabilities, then the three extension
categories, each of which can abort the load. -/
def configExtensionsPhase (ext : ConfigExternals) (node : XmlNode)
    (conf2 : NiConfig) : Option NiConfig :=
  let conf3 := { conf2 with default_allow_update :=
                   conf2.default_allow_update &&& ext.systemUpdateCaps }
  match ni_config_parse_extensions ext.xp (some ext.addrconfNameToType)
          conf3.addrconf_extensions node "addrconf" with
  | none => none
  | some ae =>
    match ni_config_parse_extensions ext.xp (some ext.linktypeNameToType)
            conf3.linktype_extensions node "linktype" with
    | none => none
    | some le =>
      match ni_config_parse_extensions ext.xp none
              conf3.api_extensions node "api" with
      | none => none
      | some apie =>
        some { conf3 with addrconf_extensions := ae
                        , linktype_extensions := le
                        , api_extensions := apie }

/-- `ni_config_parse` (config.c:63-170) over an already-read document
(`docRoot = none` models `xml_document_read` failing). Every `goto failed`
becomes `none`: the partially built `conf` is freed there, so no partial
configuration escapes. The REST-API registration block (config.c:126-159)
only calls external registration hooks and does not modify `conf`, so it
is omitted. -/
def ni_config_parse (ext : ConfigExternals) (docRoot : Option XmlNode) : Option NiConfig :=
  match docRoot with
  | none => none
  | some root =>
    match xml_node_get_child root "config" with
    | none => none
    | some node =>
      match configHeadPhase ext node with
      | none => none
      | some conf2 => configExtensionsPhase ext node conf2

/-! ## Supporting lemmas -/

/-- The chain-walk loop finds a match exactly when the service's
`compatible` pointer occurs in the walked list. -/
theorem serviceCompatibleMatch_iff (s : NiDbusService) (l : List NiDbusClass) :
    serviceCompatibleMatch s l = true ↔ ∃ c ∈ l, s.compatible = some c := by
  induction l with
  | nil => simp [serviceCompatibleMatch]
  | cons c rest ih =>
    simp only [serviceCompatibleMatch]
    by_cases h : s.compatible = some c
    · simp [h]
    · simp only [if_neg h, ih]
      constructor
      · rintro ⟨d, hd, hc⟩
        exact ⟨d, List.mem_cons_of_mem _ hd, hc⟩
      · rintro ⟨d, hd, hc⟩
        rcases List.mem_cons.mp hd with rfl | hd2
        · exact absurd hc h
        · exact ⟨d, hd2, hc⟩

/-- The service loop of the binder appends exactly the compatible services,
in registry order. -/
theorem bind_fold_services (cls : NiDbusClass) (registry : List NiDbusService)
    (obj : NiDbusObject) :
    (registry.foldl
      (fun o service =>
        if serviceCompatibleMatch service (classChain cls) then
          ni_dbus_object_register_service o service
        else o)
      obj).services
    = obj.services
      ++ registry.filter (fun s => serviceCompatibleMatch s (classChain cls)) := by
  induction registry generalizing obj with
  | nil => simp
  | cons s rest ih =>
    rw [List.foldl_cons, List.filter_cons]
    by_cases h : serviceCompatibleMatch s (classChain cls) = true
    · rw [if_pos h, ih]
      simp [h, ni_dbus_object_register_service]
    · rw [if_neg h, ih]
      simp [h]

/-! ## Claims -/

/-- C1: for every object whose class is set,
`ni_objectmodel_bind_compatible_interfaces` succeeds, the attached-service
set consists of exactly those registered services whose `compatible` class
occurs in the object's superclass chain, and each such service is attached
exactly once per binding pass. -/
theorem bind_compatible_attaches_exactly_once
    (registry : List NiDbusService) (obj : NiDbusObject) (cls : NiDbusClass)
    (hcls : obj.objClass = some cls) (hinit : obj.services = [])
    (hnodup : registry.Nodup) :
    (ni_objectmodel_bind_compatible_interfaces registry obj).ok = true ∧
    (∀ s : NiDbusService,
      s ∈ (ni_objectmodel_bind_compatible_interfaces registry obj).object.services ↔
        (s ∈ registry ∧ ∃ c ∈ classChain cls, s.compatible = some c)) ∧
    (∀ s : NiDbusService, s ∈ registry → (∃ c ∈ classChain cls, s.compatible = some c) →
      (ni_objectmodel_bind_compatible_interfaces registry obj).object.services.count s = 1) := by
  rcases obj with ⟨p, oc, svcs⟩
  obtain rfl : oc = some cls := hcls
  obtain rfl : svcs = [] := hinit
  have hok : (ni_objectmodel_bind_compatible_interfaces registry ⟨p, some cls, []⟩).ok = true :=
    rfl
  have hsvc : (ni_objectmodel_bind_compatible_interfaces registry ⟨p, some cls, []⟩).object.services
      = registry.filter (fun s => serviceCompatibleMatch s (classChain cls)) := by
    show (List.foldl
        (fun o service =>
          if serviceCompatibleMatch service (classChain cls) then
            ni_dbus_object_register_service o service
          else o)
        ⟨p, some cls, []⟩ registry).services = _
    rw [bind_fold_services]
    simp
  refine ⟨hok, ?_, ?_⟩
  · intro s
    rw [hsvc]
    rw [List.mem_filter, serviceCompatibleMatch_iff]
  · intro s hmem hcomp
    rw [hsvc]
    have hsf : s ∈ registry.filter (fun t => serviceCompatibleMatch t (classChain cls)) := by
      rw [List.mem_filter]
      exact ⟨hmem, (serviceCompatibleMatch_iff s _).mpr hcomp⟩
    exact List.count_eq_one_of_mem (hnodup.filter _) hsf

/-- The `Base`/`Child`/`S1` round trip used by the claim's example. -/
def baseClassEx : NiDbusClass := .root (some "Base")

/-- The child class of the example, with superclass `Base`. -/
def childClassEx : NiDbusClass := .child (some "Child") baseClassEx

/-- The example service, compatible with `Base`. -/
def s1ServiceEx : NiDbusService := { name := "S1", compatible := some baseClassEx }

/-- The example object, of class `Child`, initially without services. -/
def objChildEx : NiDbusObject := { path := "/org/ex", objClass := some childClassEx, services := [] }

/-- C1 witness: on the concrete `{Base, Child(superclass=Base)}` registry
with service `S1` compatible with `Base`, binding an object of class
`Child` puts `S1` in its attached-service set exactly once. -/
theorem bind_compatible_attaches_exactly_once_witness :
    objChildEx.objClass = some childClassEx ∧
    objChildEx.services = [] ∧
    [s1ServiceEx].Nodup ∧
    (ni_objectmodel_bind_compatible_interfaces [s1ServiceEx] objChildEx).object.services.count
        s1ServiceEx = 1 :=
  ⟨rfl, rfl, by decide,
    (bind_compatible_attaches_exactly_once [s1ServiceEx] objChildEx childClassEx
        rfl rfl (by decide)).2.2 s1ServiceEx (by decide)
      ⟨baseClassEx, by decide, rfl⟩⟩

/-- C8: binding an object whose class is NULL fails, emits a binding
error, and leaves the object unchanged (in particular with zero attached
services); the function returns normally, it does not terminate the
process. -/
theorem bind_without_class_fails
    (registry : List NiDbusService) (obj : NiDbusObject) (h : obj.objClass = none) :
    (ni_objectmodel_bind_compatible_interfaces registry obj).ok = false ∧
    (ni_objectmodel_bind_compatible_interfaces registry obj).object = obj ∧
    (ni_objectmodel_bind_compatible_interfaces registry obj).errors ≠ [] := by
  unfold ni_objectmodel_bind_compatible_interfaces
  rw [h]
  exact ⟨rfl, rfl, by simp⟩

/-- C8 witness: a concrete class-less object with a nonempty registry. -/
theorem bind_without_class_fails_witness :
    ({ path := "/org/noclass", objClass := none, services := [] } : NiDbusObject).objClass
        = none ∧
    (ni_objectmodel_bind_compatible_interfaces [s1ServiceEx]
      { path := "/org/noclass", objClass := none, services := [] }).ok = false ∧
    (ni_objectmodel_bind_compatible_interfaces [s1ServiceEx]
      { path := "/org/noclass", objClass := none, services := [] }).object.services = [] :=
  ⟨rfl,
    (bind_without_class_fails [s1ServiceEx]
      { path := "/org/noclass", objClass := none, services := [] } rfl).1,
    by rw [(bind_without_class_fails [s1ServiceEx]
        { path := "/org/noclass", objClass := none, services := [] } rfl).2.1]⟩

/-- C3 counterexample: the claim says an empty name is rejected and that
re-registering a present name is rejected; on the code, a class whose name
is the empty string registers fine (`ni_assert(class->name)` only checks
the pointer), re-registering the name "A" appends a duplicate entry, and
`ni_objectmodel_register_service` accepts a duplicate as well. -/
theorem register_rejects_empty_and_duplicates_counterexample :
    ni_objectmodel_register_class [] (.root (some "")) = some [.root (some "")] ∧
    ni_objectmodel_register_class [.root (some "A")] (.root (some "A"))
      = some [.root (some "A"), .root (some "A")] ∧
    ni_objectmodel_register_service [s1ServiceEx] s1ServiceEx
      = some [s1ServiceEx, s1ServiceEx] := by
  decide

/-- C3 amended: `ni_objectmodel_register_class` aborts (a fatal
`ni_assert`) exactly when the name pointer is NULL or the table already
holds `NI_DBUS_CLASSES_MAX` entries; otherwise it appends the descriptor,
with no duplicate check (an empty-but-non-NULL name and a re-registered
name are both accepted). `ni_objectmodel_register_service` aborts exactly
when the table already holds `NI_DBUS_SERVICES_MAX` entries; it has no
name check at all. -/
theorem register_class_and_service_contract
    (regc : List NiDbusClass) (c : NiDbusClass)
    (regs : List NiDbusService) (s : NiDbusService) :
    (ni_objectmodel_register_class regc c = none ↔
      (c.name = none ∨ NI_DBUS_CLASSES_MAX ≤ regc.length)) ∧
    (c.name ≠ none → regc.length < NI_DBUS_CLASSES_MAX →
      ni_objectmodel_register_class regc c = some (regc ++ [c])) ∧
    (ni_objectmodel_register_service regs s = none ↔
      NI_DBUS_SERVICES_MAX ≤ regs.length) ∧
    (regs.length < NI_DBUS_SERVICES_MAX →
      ni_objectmodel_register_service regs s = some (regs ++ [s])) := by
  unfold ni_objectmodel_register_class ni_objectmodel_register_service
  refine ⟨?_, ?_, ?_, ?_⟩
  · by_cases h : c.name = none
    · simp [h]
    · simp [h]
  · intro h hlen
    rw [if_neg h, if_pos hlen]
  · by_cases h : regs.length < NI_DBUS_SERVICES_MAX
    · simp [h]
    · simp [h]
      omega
  · intro h
    rw [if_pos h]

/-- C3 witness for the amended contract: concrete registrations. -/
theorem register_class_and_service_contract_witness :
    ((NiDbusClass.root (some "A")).name ≠ none ∧
      ([] : List NiDbusClass).length < NI_DBUS_CLASSES_MAX ∧
      ni_objectmodel_register_class [] (.root (some "A")) = some [.root (some "A")]) ∧
    (ni_objectmodel_register_class [] (.root none) = none) ∧
    (([] : List NiDbusService).length < NI_DBUS_SERVICES_MAX ∧
      ni_objectmodel_register_service [] s1ServiceEx = some [s1ServiceEx]) :=
  ⟨⟨by decide, by decide,
      (register_class_and_service_contract [] (.root (some "A")) [] s1ServiceEx).2.1
        (by decide) (by decide)⟩,
    (register_class_and_service_contract [] (.root none) [] s1ServiceEx).1.mpr
      (Or.inl rfl),
    ⟨by decide,
      (register_class_and_service_contract [] (.root none) [] s1ServiceEx).2.2.2
        (by decide)⟩⟩

/-- C2 counterexample: the claim says both temp files are absent after
completion runs; on the code the completion handler contains no `unlink`,
so after a successful completion the argument and return files are still
present. -/
theorem extension_completion_removes_files_counterexample :
    (ni_objectmodel_extension_completion 0
        { files := ["/tmp/wicked-arg", "/tmp/wicked-ret"], sentReplies := [] }).2.files
      ≠ [] := by
  decide

/-- C2 amended: for every completed extension-call subprocess the
completion handler sends exactly one reply — a success reply when the exit
status is zero and an error reply carrying the fixed failure message
otherwise — and it leaves the filesystem untouched: the two temporary
files are not removed (they remain present; cleaning them up is left
undone by the code). -/
theorem extension_completion_sends_one_reply
    (exitStatus : Nat) (st : CompletionState) (hinit : st.sentReplies = []) :
    (ni_objectmodel_extension_completion exitStatus st).2.sentReplies
      = [if exitStatus = 0 then DbusReply.methodReturn
         else DbusReply.errorReply DBUS_ERROR_FAILED "dbus extension script returns error"] ∧
    (ni_objectmodel_extension_completion exitStatus st).2.files = st.files ∧
    (ni_objectmodel_extension_completion exitStatus st).1 = true := by
  unfold ni_objectmodel_extension_completion ni_process_exit_status_okay
  refine ⟨?_, rfl, rfl⟩
  simp only [hinit]
  by_cases h : exitStatus = 0
  · simp [h]
  · simp [h]

/-- C2 witness: concrete completions for exit status 0 and 1. -/
theorem extension_completion_sends_one_reply_witness :
    (({ files := ["/tmp/a", "/tmp/r"], sentReplies := [] } : CompletionState).sentReplies
        = [] ∧
      (ni_objectmodel_extension_completion 0
          { files := ["/tmp/a", "/tmp/r"], sentReplies := [] }).2.sentReplies
        = [DbusReply.methodReturn]) ∧
    (ni_objectmodel_extension_completion 1
        { files := ["/tmp/a", "/tmp/r"], sentReplies := [] }).2.sentReplies
      = [DbusReply.errorReply DBUS_ERROR_FAILED "dbus extension script returns error"] :=
  ⟨⟨rfl,
    by
      rw [(extension_completion_sends_one_reply 0
        { files := ["/tmp/a", "/tmp/r"], sentReplies := [] } rfl).1]
      decide⟩,
    by
      rw [(extension_completion_sends_one_reply 1
        { files := ["/tmp/a", "/tmp/r"], sentReplies := [] } rfl).1]
      decide⟩

/-- C4: when the second temp file cannot be created after the first
(argument) temp file was created and filled, the dispatcher does send the
general-failure error reply and launches no subprocess — but, contrary to
the claim (and to the intent of the `general_failure` cleanup block, which
tests a `tempname` that is always NULL by then), the first temporary file
is NOT deleted: it is still on disk when the dispatcher returns. -/
theorem extension_call_second_tempfile_failure_leaks_argfile :
    (ni_objectmodel_extension_call
        { hasExtension := true, hasScript := true, marshalOk := true
        , mkstemp1 := some "/tmp/wicked-arg", write1Ok := true
        , mkstemp2 := none, runOk := true }
        { files := [], env := [], sentReplies := [], launched := false }).1 = false ∧
    (ni_objectmodel_extension_call
        { hasExtension := true, hasScript := true, marshalOk := true
        , mkstemp1 := some "/tmp/wicked-arg", write1Ok := true
        , mkstemp2 := none, runOk := true }
        { files := [], env := [], sentReplies := [], launched := false }).2.sentReplies
      = [DbusReply.errorReply DBUS_ERROR_FAILED "general failure when executing method"] ∧
    (ni_objectmodel_extension_call
        { hasExtension := true, hasScript := true, marshalOk := true
        , mkstemp1 := some "/tmp/wicked-arg", write1Ok := true
        , mkstemp2 := none, runOk := true }
        { files := [], env := [], sentReplies := [], launched := false }).2.launched = false ∧
    "/tmp/wicked-arg" ∈
      (ni_objectmodel_extension_call
        { hasExtension := true, hasScript := true, marshalOk := true
        , mkstemp1 := some "/tmp/wicked-arg", write1Ok := true
        , mkstemp2 := none, runOk := true }
        { files := [], env := [], sentReplies := [], launched := false }).2.files := by
  decide

/-- A `<prefer-server ip=".." weight="..">` element. -/
def preferServerNode (ip : String) (w : String) : XmlNode :=
  .mk "prefer-server" [("ip", ip), ("weight", w)] none []

/-- A `<prefer-server ip="..">` element with no weight attribute. -/
def preferServerNodeNoWeight (ip : String) : XmlNode :=
  .mk "prefer-server" [("ip", ip)] none []

/-- A `<dhcp>` element with the given children. -/
def dhcpNode (children : List XmlNode) : XmlNode :=
  .mk "dhcp" [] none children

/-- How `dhcpChildStep` handles one `<prefer-server>` element that carries
an `ip` attribute, when there is room in the table and the address parses:
the preference is appended with the weight computed by
`dhcpPreferWeight`. -/
theorem dhcpChildStep_prefer_server (pa : String → Bool) (nt : String → Int)
    (dhcp : NiConfigDhcp) (warns : List String) (ip : String) (wattr : Option String)
    (hroom : dhcp.preferred_server.length < NI_DHCP_SERVER_PREFERENCES_MAX)
    (hip : pa ip = true) :
    dhcpChildStep pa nt dhcp warns
        (.mk "prefer-server"
          (("ip", ip) :: (match wattr with | some w => [("weight", w)] | none => []))
          none [])
      = some ({ dhcp with preferred_server := dhcp.preferred_server
                  ++ [{ address := ip, weight := (dhcpPreferWeight wattr).1 }] },
              warns ++ (dhcpPreferWeight wattr).2) := by
  have hnm : ¬ (NI_DHCP_SERVER_PREFERENCES_MAX ≤ dhcp.preferred_server.length) := by omega
  cases wattr with
  | none =>
    simp [dhcpChildStep, xml_node_get_attr, XmlNode.name, XmlNode.attrs, hip, hnm]
  | some w =>
    simp [dhcpChildStep, xml_node_get_attr, XmlNode.name, XmlNode.attrs, hip, hnm]

/-- Parsing a one-child `<dhcp>` element reduces to the single child step. -/
theorem dhcpGo_singleton (pa : String → Bool) (nt : String → Int)
    (c : XmlNode) (dhcp : NiConfigDhcp) (warns : List String) :
    dhcpGo pa nt [c] dhcp warns = dhcpChildStep pa nt dhcp warns c := by
  cases h : dhcpChildStep pa nt dhcp warns c with
  | none => simp [dhcpGo, h]
  | some p => simp [dhcpGo, h]

/-- Parsing a `<dhcp>` element holding a single `<prefer-server>` child
with an `ip` attribute and an optional weight attribute appends one
preference whose weight and warnings come from `dhcpPreferWeight`. -/
theorem parse_single_prefer_server (pa : String → Bool) (nt : String → Int)
    (ip : String) (dhcp : NiConfigDhcp)
    (hip : pa ip = true)
    (hroom : dhcp.preferred_server.length < NI_DHCP_SERVER_PREFERENCES_MAX)
    (wattr : Option String) :
    ni_config_parse_addrconf_dhcp pa nt dhcp
        (dhcpNode [.mk "prefer-server"
          (("ip", ip) :: (match wattr with | some w => [("weight", w)] | none => []))
          none []])
      = some ({ dhcp with preferred_server := dhcp.preferred_server
                  ++ [{ address := ip, weight := (dhcpPreferWeight wattr).1 }] },
              (dhcpPreferWeight wattr).2) := by
  have hstep := dhcpChildStep_prefer_server pa nt dhcp [] ip wattr hroom hip
  show dhcpGo pa nt _ dhcp [] = _
  simp only [dhcpNode, XmlNode.children]
  rw [dhcpGo_singleton, hstep]
  simp

/-- C5: a `<prefer-server>` element stores weight 100 for
`weight="always"`, -1 for `weight="never"`, 100 when the attribute is
absent, and for any other token the `strtol` value clamped from above to
100, warning exactly when clamping occurs (in particular `weight="150"`
stores 100 with a warning). -/
theorem prefer_server_weight_parsing
    (pa : String → Bool) (nt : String → Int) (ip : String) (dhcp : NiConfigDhcp)
    (hip : pa ip = true)
    (hroom : dhcp.preferred_server.length < NI_DHCP_SERVER_PREFERENCES_MAX) :
    (ni_config_parse_addrconf_dhcp pa nt dhcp (dhcpNode [preferServerNode ip "always"])
      = some ({ dhcp with preferred_server := dhcp.preferred_server
                  ++ [{ address := ip, weight := 100 }] }, [])) ∧
    (ni_config_parse_addrconf_dhcp pa nt dhcp (dhcpNode [preferServerNode ip "never"])
      = some ({ dhcp with preferred_server := dhcp.preferred_server
                  ++ [{ address := ip, weight := -1 }] }, [])) ∧
    (ni_config_parse_addrconf_dhcp pa nt dhcp (dhcpNode [preferServerNodeNoWeight ip])
      = some ({ dhcp with preferred_server := dhcp.preferred_server
                  ++ [{ address := ip, weight := 100 }] }, [])) ∧
    (∀ tok : String, tok ≠ "always" → tok ≠ "never" →
      ni_config_parse_addrconf_dhcp pa nt dhcp (dhcpNode [preferServerNode ip tok])
        = some ({ dhcp with preferred_server := dhcp.preferred_server
                    ++ [{ address := ip
                        , weight := if 100 < ni_strtol tok then 100 else ni_strtol tok }] },
                if 100 < ni_strtol tok then
                  ["preferred dhcp server weight exceeds max, clamping to 100"]
                else [])) ∧
    (ni_config_parse_addrconf_dhcp pa nt dhcp (dhcpNode [preferServerNode ip "150"])
      = some ({ dhcp with preferred_server := dhcp.preferred_server
                  ++ [{ address := ip, weight := 100 }] },
              ["preferred dhcp server weight exceeds max, clamping to 100"])) := by
  have hbase : ∀ wattr : Option String,
      ni_config_parse_addrconf_dhcp pa nt dhcp
          (dhcpNode [.mk "prefer-server"
            (("ip", ip) :: (match wattr with | some w => [("weight", w)] | none => []))
            none []])
        = some ({ dhcp with preferred_server := dhcp.preferred_server
                    ++ [{ address := ip, weight := (dhcpPreferWeight wattr).1 }] },
                (dhcpPreferWeight wattr).2) :=
    parse_single_prefer_server pa nt ip dhcp hip hroom
  refine ⟨?_, ?_, ?_, ?_, ?_⟩
  · have := hbase (some "always")
    simpa [dhcpPreferWeight] using this
  · have := hbase (some "never")
    simpa [dhcpPreferWeight] using this
  · have := hbase none
    simpa [dhcpPreferWeight] using this
  · intro tok htok1 htok2
    have := hbase (some tok)
    have hw : dhcpPreferWeight (some tok)
        = (if 100 < ni_strtol tok then (100 : Int) else ni_strtol tok,
           if 100 < ni_strtol tok then
             ["preferred dhcp server weight exceeds max, clamping to 100"]
           else []) := by
      simp only [dhcpPreferWeight, if_neg htok1, if_neg htok2]
      by_cases hc : 100 < ni_strtol tok
      · simp [hc]
      · simp [hc]
    rw [hw] at this
    simpa using this
  · have := hbase (some "150")
    have h150 : ni_strtol "150" = 150 := by decide
    simpa [dhcpPreferWeight, h150] using this

/-- C5 witness: the concrete cases of the claim, with `ip = "10.0.0.1"`
and an accepting address parser, starting from the default (empty) dhcp
configuration. -/
theorem prefer_server_weight_parsing_witness :
    ((fun _ => true : String → Bool) "10.0.0.1" = true ∧
      dhcpDefault.preferred_server.length < NI_DHCP_SERVER_PREFERENCES_MAX) ∧
    (ni_config_parse_addrconf_dhcp (fun _ => true) (fun _ => -1) dhcpDefault
        (dhcpNode [preferServerNode "10.0.0.1" "150"])
      = some ({ dhcpDefault with preferred_server :=
                  [{ address := "10.0.0.1", weight := 100 }] },
              ["preferred dhcp server weight exceeds max, clamping to 100"])) ∧
    (ni_config_parse_addrconf_dhcp (fun _ => true) (fun _ => -1) dhcpDefault
        (dhcpNode [preferServerNode "10.0.0.1" "never"])
      = some ({ dhcpDefault with preferred_server :=
                  [{ address := "10.0.0.1", weight := -1 }] }, [])) :=
  ⟨⟨rfl, by decide⟩,
    by
      have h := (prefer_server_weight_parsing (fun _ => true) (fun _ => -1) "10.0.0.1"
        dhcpDefault rfl (by decide)).2.2.2.2
      simpa [dhcpDefault] using h,
    by
      have h := (prefer_server_weight_parsing (fun _ => true) (fun _ => -1) "10.0.0.1"
        dhcpDefault rfl (by decide)).2.1
      simpa [dhcpDefault] using h⟩

/-- C9: when the weight attribute is neither "always" nor "never" and its
`strtol` value is at most 100, the stored weight is exactly that value —
there is no lower bound: negative weights pass through unclamped and
unrejected, with no warning. -/
theorem prefer_server_weight_no_lower_bound
    (pa : String → Bool) (nt : String → Int) (ip tok : String) (dhcp : NiConfigDhcp)
    (hip : pa ip = true)
    (hroom : dhcp.preferred_server.length < NI_DHCP_SERVER_PREFERENCES_MAX)
    (htok1 : tok ≠ "always") (htok2 : tok ≠ "never")
    (hle : ni_strtol tok ≤ 100) :
    ni_config_parse_addrconf_dhcp pa nt dhcp (dhcpNode [preferServerNode ip tok])
      = some ({ dhcp with preferred_server := dhcp.preferred_server
                  ++ [{ address := ip, weight := ni_strtol tok }] }, []) := by
  have h := parse_single_prefer_server pa nt ip dhcp hip hroom (some tok)
  have hnc : ¬ (100 < ni_strtol tok) := by omega
  have hw : dhcpPreferWeight (some tok) = (ni_strtol tok, []) := by
    simp [dhcpPreferWeight, htok1, htok2, hnc]
  rw [hw] at h
  simpa [preferServerNode] using h

/-- C9 witness: `weight="-42"` is stored as -42, unclamped. -/
theorem prefer_server_weight_no_lower_bound_witness :
    ni_strtol "-42" = -42 ∧
    ni_strtol "-42" ≤ 100 ∧
    (ni_config_parse_addrconf_dhcp (fun _ => true) (fun _ => -1) dhcpDefault
        (dhcpNode [preferServerNode "10.0.0.1" "-42"])
      = some ({ dhcpDefault with preferred_server :=
                  [{ address := "10.0.0.1", weight := -42 }] }, [])) :=
  ⟨by decide, by decide,
    by
      have h := prefer_server_weight_no_lower_bound (fun _ => true) (fun _ => -1)
        "10.0.0.1" "-42" dhcpDefault rfl (by decide) (by decide) (by decide) (by decide)
      have hv : ni_strtol "-42" = -42 := by decide
      rw [hv] at h
      simpa [dhcpDefault] using h⟩

/-- A `<default-allow-update>`/`<allow-update>` style element whose
children are empty elements with the given names. -/
def updateTargetsNode (names : List String) : XmlNode :=
  .mk "default-allow-update" [] none (names.map (fun n => .mk n [] none []))

/-- C6: update-target parsing sets the mask to all-bits-set for `<all/>`,
to 0 for `<none/>`, ORs in exactly the target's bit for a recognized named
target (leaving every other bit at its pre-existing value, as the testBit
characterization states), leaves the mask unchanged for an unrecognized
name, and for two recognized targets ORs in exactly those two bits. -/
theorem update_targets_parsing (nt : String → Int) (mask0 : Nat) :
    (ni_config_parse_update_targets nt (updateTargetsNode ["all"]) mask0
      = (UINT_ALL_BITS, [])) ∧
    (ni_config_parse_update_targets nt (updateTargetsNode ["none"]) mask0
      = (0, [])) ∧
    (∀ nm : String, ∀ t : Nat, nm ≠ "all" → nm ≠ "none" → nt nm = (t : Int) →
      ni_config_parse_update_targets nt (updateTargetsNode [nm]) mask0
        = (mask0 ||| (1 <<< t), []) ∧
      ∀ i : Nat,
        (ni_config_parse_update_targets nt (updateTargetsNode [nm]) mask0).1.testBit i
          = (mask0.testBit i || decide (t = i))) ∧
    (∀ nm : String, nm ≠ "all" → nm ≠ "none" → nt nm < 0 →
      ni_config_parse_update_targets nt (updateTargetsNode [nm]) mask0
        = (mask0, ["ignoring unknown addrconf update target " ++ nm])) ∧
    (∀ nm1 nm2 : String, ∀ t1 t2 : Nat,
      nm1 ≠ "all" → nm1 ≠ "none" → nm2 ≠ "all" → nm2 ≠ "none" →
      nt nm1 = (t1 : Int) → nt nm2 = (t2 : Int) →
      ni_config_parse_update_targets nt (updateTargetsNode [nm1, nm2]) mask0
        = ((mask0 ||| (1 <<< t1)) ||| (1 <<< t2), []) ∧
      ∀ i : Nat,
        (ni_config_parse_update_targets nt (updateTargetsNode [nm1, nm2]) mask0).1.testBit i
          = (mask0.testBit i || decide (t1 = i) || decide (t2 = i))) := by
  have hbit : ∀ (m t i : Nat),
      (m ||| (1 <<< t)).testBit i = (m.testBit i || decide (t = i)) := by
    intro m t i
    rw [Nat.testBit_or]
    simp [Nat.shiftLeft_eq, Nat.testBit_two_pow]
  refine ⟨?_, ?_, ?_, ?_, ?_⟩
  · simp [ni_config_parse_update_targets, updateTargetStep, updateTargetsNode, XmlNode.children, XmlNode.name]
  · simp [ni_config_parse_update_targets, updateTargetStep, updateTargetsNode, XmlNode.children, XmlNode.name]
  · intro nm t h1 h2 ht
    have heq : ni_config_parse_update_targets nt (updateTargetsNode [nm]) mask0
        = (mask0 ||| (1 <<< t), []) := by
      simp [ni_config_parse_update_targets, updateTargetStep, updateTargetsNode,
        XmlNode.children, XmlNode.name, h1, h2, ht]
    exact ⟨heq, fun i => by rw [heq]; exact hbit mask0 t i⟩
  · intro nm h1 h2 ht
    have hneg : ¬ ((0 : Int) ≤ nt nm) := by omega
    simp [ni_config_parse_update_targets, updateTargetStep, updateTargetsNode,
      XmlNode.children, XmlNode.name, h1, h2, hneg]
  · intro nm1 nm2 t1 t2 h1 h2 h3 h4 ht1 ht2
    have heq : ni_config_parse_update_targets nt (updateTargetsNode [nm1, nm2]) mask0
        = ((mask0 ||| (1 <<< t1)) ||| (1 <<< t2), []) := by
      simp [ni_config_parse_update_targets, updateTargetStep, updateTargetsNode,
        XmlNode.children, XmlNode.name, h1, h2, h3, h4, ht1, ht2]
    refine ⟨heq, fun i => ?_⟩
    rw [heq]
    show ((mask0 ||| (1 <<< t1)) ||| (1 <<< t2)).testBit i = _
    rw [hbit _ t2 i, hbit mask0 t1 i]

/-- C6 witness: a concrete target table mapping "routes" to bit 1 and
"dns" to bit 3, exercised on `<all/>`, `<none/>`, one named target, an
unknown name, and two named targets over the pre-existing mask 5. -/
theorem update_targets_parsing_witness :
    (ni_config_parse_update_targets
        (fun n => if n = "dns" then 3 else if n = "routes" then 1 else -1)
        (updateTargetsNode ["all"]) 5 = (UINT_ALL_BITS, [])) ∧
    (ni_config_parse_update_targets
        (fun n => if n = "dns" then 3 else if n = "routes" then 1 else -1)
        (updateTargetsNode ["none"]) 5 = (0, [])) ∧
    (ni_config_parse_update_targets
        (fun n => if n = "dns" then 3 else if n = "routes" then 1 else -1)
        (updateTargetsNode ["dns"]) 5 = (13, [])) ∧
    (ni_config_parse_update_targets
        (fun n => if n = "dns" then 3 else if n = "routes" then 1 else -1)
        (updateTargetsNode ["bogus"]) 5
      = (5, ["ignoring unknown addrconf update target bogus"])) ∧
    (ni_config_parse_update_targets
        (fun n => if n = "dns" then 3 else if n = "routes" then 1 else -1)
        (updateTargetsNode ["dns", "routes"]) 5 = (15, [])) := by
  have h := update_targets_parsing
    (fun n => if n = "dns" then 3 else if n = "routes" then 1 else -1) 5
  refine ⟨h.1, h.2.1, ?_, ?_, ?_⟩
  · have h3 := (h.2.2.1 "dns" 3 (by decide) (by decide) (by decide)).1
    rw [h3]
    decide
  · have h4 := h.2.2.2.1 "bogus" (by decide) (by decide) (by decide)
    rw [h4]
    rfl
  · have h5 := (h.2.2.2.2 "dns" "routes" 3 1 (by decide) (by decide) (by decide)
      (by decide) (by decide) (by decide)).1
    rw [h5]
    decide

/-- Whether an element is a `<prefer-server>` element carrying an `ip`
attribute — the shape that the dhcp parser counts against the cap. -/
def isPreferServerWithIp (c : XmlNode) : Bool :=
  c.name = "prefer-server" && (xml_node_get_attr c "ip").isSome

/-- Any warning produced by one update-target step is either carried over
from the accumulator or has the fixed unknown-target prefix. -/
theorem updateTargetStep_warns (nt : String → Int) (acc : Nat × List String)
    (c : XmlNode) (s : String) (h : s ∈ (updateTargetStep nt acc c).2) :
    s ∈ acc.2 ∨ ∃ n, s = "ignoring unknown addrconf update target " ++ n := by
  simp only [updateTargetStep] at h
  split at h
  · exact Or.inl h
  · split at h
    · exact Or.inl h
    · split at h
      · exact Or.inl h
      · rcases List.mem_append.mp h with h2 | h2
        · exact Or.inl h2
        · exact Or.inr ⟨c.name, by simpa using h2⟩

/-- Lifted to the whole update-target fold. -/
theorem update_targets_foldl_warns (nt : String → Int) (l : List XmlNode) :
    ∀ (acc : Nat × List String) (s : String),
      s ∈ (l.foldl (updateTargetStep nt) acc).2 →
      s ∈ acc.2 ∨ ∃ n, s = "ignoring unknown addrconf update target " ++ n := by
  induction l with
  | nil => intro acc s h; exact Or.inl h
  | cons c rest ih =>
    intro acc s h
    rcases ih (updateTargetStep nt acc c) s h with h2 | h2
    · exact updateTargetStep_warns nt acc c s h2
    · exact Or.inr h2

/-- The update-target parser never emits the dhcp cap warning (the two
message texts have different lengths). -/
theorem update_targets_no_skip_warning (nt : String → Int) (node : XmlNode) (mask0 : Nat) :
    "config: too many prefer-server elements"
      ∉ (ni_config_parse_update_targets nt node mask0).2 := by
  intro hmem
  rcases update_targets_foldl_warns nt node.children (mask0, []) _ hmem with h | ⟨n, hn⟩
  · simp at h
  · have hlen := congrArg String.length hn
    rw [String.length_append] at hlen
    have h1 : ("config: too many prefer-server elements" : String).length = 39 := rfl
    have h2 : ("ignoring unknown addrconf update target " : String).length = 40 := rfl
    omega

/-- One dhcp child step either leaves the preference table untouched or,
only below the cap, appends exactly one entry. -/
theorem dhcpChildStep_pref_length (pa : String → Bool) (nt : String → Int)
    (dhcp : NiConfigDhcp) (warns : List String) (c : XmlNode)
    (d2 : NiConfigDhcp) (w2 : List String)
    (h : dhcpChildStep pa nt dhcp warns c = some (d2, w2)) :
    d2.preferred_server = dhcp.preferred_server ∨
      (dhcp.preferred_server.length < NI_DHCP_SERVER_PREFERENCES_MAX ∧
        d2.preferred_server.length = dhcp.preferred_server.length + 1) := by
  unfold dhcpChildStep at h
  repeat' split at h
  all_goals
    first
      | exact Option.noConfusion h
      | (rw [Option.some.injEq, Prod.mk.injEq] at h
         obtain ⟨h1, h2⟩ := h
         subst h1
         first
           | exact Or.inl rfl
           | (right
              constructor
              · omega
              · simp))

/-- The preference-table bound is an invariant of the whole dhcp child
loop. -/
theorem dhcpGo_length_invariant (pa : String → Bool) (nt : String → Int)
    (children : List XmlNode) :
    ∀ (dhcp : NiConfigDhcp) (warns : List String) (d2 : NiConfigDhcp) (w2 : List String),
      dhcpGo pa nt children dhcp warns = some (d2, w2) →
      dhcp.preferred_server.length ≤ NI_DHCP_SERVER_PREFERENCES_MAX →
      d2.preferred_server.length ≤ NI_DHCP_SERVER_PREFERENCES_MAX := by
  induction children with
  | nil =>
    intro dhcp warns d2 w2 h hle
    unfold dhcpGo at h
    rw [Option.some.injEq, Prod.mk.injEq] at h
    obtain ⟨h1, h2⟩ := h
    subst h1
    exact hle
  | cons c rest ih =>
    intro dhcp warns d2 w2 h hle
    unfold dhcpGo at h
    cases hc : dhcpChildStep pa nt dhcp warns c with
    | none => rw [hc] at h; exact Option.noConfusion h
    | some p =>
      rcases p with ⟨dmid, wmid⟩
      rw [hc] at h
      have hmid : dmid.preferred_server.length ≤ NI_DHCP_SERVER_PREFERENCES_MAX := by
        rcases dhcpChildStep_pref_length pa nt dhcp warns c dmid wmid hc with heq | ⟨hlt, hsucc⟩
        · rw [heq]; exact hle
        · omega
      exact ih dmid wmid d2 w2 h hmid

/-- At the cap, one dhcp child step always succeeds, never touches the
preference table, and emits the cap warning exactly for a
`<prefer-server>` element that carries an `ip` attribute. -/
theorem dhcpChildStep_at_max (pa : String → Bool) (nt : String → Int)
    (dhcp : NiConfigDhcp) (warns : List String) (c : XmlNode)
    (hmax : NI_DHCP_SERVER_PREFERENCES_MAX ≤ dhcp.preferred_server.length) :
    ∃ d2 w2, dhcpChildStep pa nt dhcp warns c = some (d2, w2) ∧
      d2.preferred_server = dhcp.preferred_server ∧
      w2.count "config: too many prefer-server elements"
        = warns.count "config: too many prefer-server elements"
          + (if isPreferServerWithIp c then 1 else 0) := by
  by_cases h1 : c.name = "vendor-class"
  · refine ⟨{ dhcp with vendor_class := c.cdata }, warns, ?_, rfl, ?_⟩
    · simp [dhcpChildStep, h1]
    · simp [isPreferServerWithIp, h1]
  · by_cases h2 : c.name = "lease-time"
    · cases hc : c.cdata with
      | some cd =>
        refine ⟨{ dhcp with lease_time := ni_strtoul cd }, warns, ?_, rfl, ?_⟩
        · simp [dhcpChildStep, h1, h2, hc]
        · simp [isPreferServerWithIp, h2]
      | none =>
        refine ⟨dhcp, warns, ?_, rfl, ?_⟩
        · simp [dhcpChildStep, h1, h2, hc]
        · simp [isPreferServerWithIp, h2]
    · by_cases h3 : c.name = "ignore-server"
      · cases hip : xml_node_get_attr c "ip" with
        | some ip =>
          refine ⟨{ dhcp with ignore_servers := dhcp.ignore_servers ++ [ip] }, warns,
            ?_, rfl, ?_⟩
          · simp [dhcpChildStep, h1, h2, h3, hip]
          · simp [isPreferServerWithIp, h3]
        | none =>
          refine ⟨dhcp, warns, ?_, rfl, ?_⟩
          · simp [dhcpChildStep, h1, h2, h3, hip]
          · simp [isPreferServerWithIp, h3]
      · by_cases h4 : c.name = "prefer-server"
        · cases hip : xml_node_get_attr c "ip" with
          | none =>
            refine ⟨dhcp, warns, ?_, rfl, ?_⟩
            · simp [dhcpChildStep, h1, h2, h3, h4, hip]
            · simp [isPreferServerWithIp, h4, hip]
          | some ip =>
            refine ⟨dhcp, warns ++ ["config: too many prefer-server elements"],
              ?_, rfl, ?_⟩
            · simp [dhcpChildStep, h1, h2, h3, h4, hip, hmax]
            · simp [isPreferServerWithIp, h4, hip, List.count_append]
        · by_cases h5 : c.name = "allow-update"
          · refine ⟨{ dhcp with allow_update :=
                (ni_config_parse_update_targets nt c dhcp.allow_update).1 },
              warns ++ (ni_config_parse_update_targets nt c dhcp.allow_update).2,
              ?_, rfl, ?_⟩
            · simp [dhcpChildStep, h1, h2, h3, h4, h5]
            · rw [List.count_append]
              have hz : (ni_config_parse_update_targets nt c dhcp.allow_update).2.count
                  "config: too many prefer-server elements" = 0 :=
                List.count_eq_zero.mpr (update_targets_no_skip_warning nt c dhcp.allow_update)
              simp [isPreferServerWithIp, h4, hz]
          · refine ⟨dhcp, warns, ?_, rfl, ?_⟩
            · simp [dhcpChildStep, h1, h2, h3, h4, h5]
            · simp [isPreferServerWithIp, h4]

/-- At the cap, the whole dhcp child loop succeeds, never grows the
preference table, and emits one cap warning per `<prefer-server>` element
with an `ip` attribute. -/
theorem dhcpGo_at_max (pa : String → Bool) (nt : String → Int)
    (children : List XmlNode) :
    ∀ (dhcp : NiConfigDhcp) (warns : List String),
      NI_DHCP_SERVER_PREFERENCES_MAX ≤ dhcp.preferred_server.length →
      ∃ d2 w2, dhcpGo pa nt children dhcp warns = some (d2, w2) ∧
        d2.preferred_server = dhcp.preferred_server ∧
        w2.count "config: too many prefer-server elements"
          = warns.count "config: too many prefer-server elements"
            + children.countP isPreferServerWithIp := by
  induction children with
  | nil =>
    intro dhcp warns _
    exact ⟨dhcp, warns, rfl, rfl, by simp⟩
  | cons c rest ih =>
    intro dhcp warns hmax
    obtain ⟨dmid, wmid, hstep, hpref, hcount⟩ :=
      dhcpChildStep_at_max pa nt dhcp warns c hmax
    have hmax2 : NI_DHCP_SERVER_PREFERENCES_MAX ≤ dmid.preferred_server.length := by
      rw [hpref]; exact hmax
    obtain ⟨d2, w2, hgo, hpref2, hcount2⟩ := ih dmid wmid hmax2
    refine ⟨d2, w2, ?_, by rw [hpref2, hpref], ?_⟩
    · unfold dhcpGo
      rw [hstep]
      exact hgo
    · rw [hcount2, hcount, List.countP_cons]
      omega

/-- C10: the parsed DHCP configuration never holds more than
`NI_DHCP_SERVER_PREFERENCES_MAX` server preferences: the bound is
preserved by every parse, and once the table is full every further
`<prefer-server>` element (with an `ip` attribute) is skipped with exactly
one warning while parsing continues and still succeeds, leaving the table
unchanged. -/
theorem dhcp_preferences_capped (pa : String → Bool) (nt : String → Int)
    (node : XmlNode) (dhcp : NiConfigDhcp) :
    (∀ (d2 : NiConfigDhcp) (w2 : List String),
      ni_config_parse_addrconf_dhcp pa nt dhcp node = some (d2, w2) →
      dhcp.preferred_server.length ≤ NI_DHCP_SERVER_PREFERENCES_MAX →
      d2.preferred_server.length ≤ NI_DHCP_SERVER_PREFERENCES_MAX) ∧
    (dhcp.preferred_server.length = NI_DHCP_SERVER_PREFERENCES_MAX →
      ∃ d2 w2, ni_config_parse_addrconf_dhcp pa nt dhcp node = some (d2, w2) ∧
        d2.preferred_server = dhcp.preferred_server ∧
        w2.count "config: too many prefer-server elements"
          = node.children.countP isPreferServerWithIp) := by
  constructor
  · intro d2 w2 h hle
    exact dhcpGo_length_invariant pa nt node.children dhcp [] d2 w2 h hle
  · intro hmax
    obtain ⟨d2, w2, hgo, hpref, hcount⟩ :=
      dhcpGo_at_max pa nt node.children dhcp [] (le_of_eq hmax.symm)
    exact ⟨d2, w2, hgo, hpref, by simpa using hcount⟩

/-- One example server preference entry. -/
def prefEx : NiServerPreference := { address := "10.0.0.1", weight := 100 }

/-- A dhcp configuration whose preference table is exactly full. -/
def fullDhcpEx : NiConfigDhcp :=
  { dhcpDefault with
      preferred_server := List.replicate NI_DHCP_SERVER_PREFERENCES_MAX prefEx }

/-- C10 witness: with a full table, a `<dhcp>` element holding one more
`<prefer-server>` (with an unparseable address, which is never reached)
and a `<vendor-class>` parses successfully, keeps the table at the cap,
and emits exactly one cap warning. -/
theorem dhcp_preferences_capped_witness :
    fullDhcpEx.preferred_server.length = NI_DHCP_SERVER_PREFERENCES_MAX ∧
    ∃ d2 w2,
      ni_config_parse_addrconf_dhcp (fun _ => false) (fun _ => -1) fullDhcpEx
          (dhcpNode [preferServerNodeNoWeight "999.bad", .mk "vendor-class" [] (some "v") []])
        = some (d2, w2) ∧
      d2.preferred_server = fullDhcpEx.preferred_server ∧
      w2.count "config: too many prefer-server elements"
        = (dhcpNode [preferServerNodeNoWeight "999.bad",
            .mk "vendor-class" [] (some "v") []]).children.countP isPreferServerWithIp :=
  ⟨by decide,
    (dhcp_preferences_capped (fun _ => false) (fun _ => -1)
      (dhcpNode [preferServerNodeNoWeight "999.bad", .mk "vendor-class" [] (some "v") []])
      fullDhcpEx).2 (by decide)⟩

/-- An `action`/`environment` child of an extension node that makes the
configuration load fail: an action without a `name` attribute, an action
whose `command` expression does not parse, an environment element without
a `putenv` attribute, or one whose `putenv` expression does not parse. -/
def extChildBad (xp : String → Option String) (c : XmlNode) : Prop :=
  (c.name = "action" ∧ xml_node_get_attr c "name" = none) ∨
  (c.name = "action" ∧ ∃ cmd, xml_node_get_attr c "command" = some cmd ∧ xp cmd = none) ∨
  (c.name = "environment" ∧ xml_node_get_attr c "putenv" = none) ∨
  (c.name = "environment" ∧ ∃ pe, xml_node_get_attr c "putenv" = some pe ∧ xp pe = none)

/-- A bad action/environment child anywhere in the list fails the child
loop, whatever was accumulated so far. -/
theorem extParseChildren_none (xp : String → Option String) (children : List XmlNode) :
    ∀ ext : NiExtension, (∃ c ∈ children, extChildBad xp c) →
      extParseChildren xp children ext = none := by
  induction children with
  | nil =>
    rintro ext ⟨c, hc, _⟩
    exact absurd hc (List.not_mem_nil c)
  | cons c rest ih =>
    rintro ext ⟨d, hd, hbad⟩
    rcases List.mem_cons.mp hd with rfl | hrest
    · rcases hbad with ⟨hn, ha⟩ | ⟨hn, cmd, hcmd, hxp⟩ | ⟨hn, ha⟩ | ⟨hn, pe, hpe, hxp⟩
      · simp [extParseChildren, hn, ha]
      · cases hname : xml_node_get_attr d "name" with
        | none => simp [extParseChildren, hn, hname]
        | some an => simp [extParseChildren, hn, hname, hcmd, hxp]
      · have hne : d.name ≠ "action" := by rw [hn]; decide
        simp [extParseChildren, hn, hne, ha]
      · have hne : d.name ≠ "action" := by rw [hn]; decide
        cases hname : xml_node_get_attr d "putenv" with
        | none => simp [extParseChildren, hn, hne, hname]
        | some pe2 =>
          rw [hname] at hpe
          rw [Option.some.injEq] at hpe
          subst hpe
          simp [extParseChildren, hn, hne, hname, hxp]
    · by_cases hact : c.name = "action"
      · cases hname : xml_node_get_attr c "name" with
        | none => simp [extParseChildren, hact, hname]
        | some an =>
          cases hcmd : xml_node_get_attr c "command" with
          | none =>
            have htail := ih { ext with actions :=
              ext.actions ++ [{ name := an, command := none }] } ⟨d, hrest, hbad⟩
            simp [extParseChildren, hact, hname, hcmd, htail]
          | some cmd =>
            cases hxp2 : xp cmd with
            | none => simp [extParseChildren, hact, hname, hcmd, hxp2]
            | some fmt =>
              have htail := ih { ext with actions :=
                ext.actions ++ [{ name := an, command := some fmt }] } ⟨d, hrest, hbad⟩
              simp [extParseChildren, hact, hname, hcmd, hxp2, htail]
      · by_cases henv : c.name = "environment"
        · cases hpe2 : xml_node_get_attr c "putenv" with
          | none => simp [extParseChildren, hact, henv, hpe2]
          | some pe =>
            cases hxp2 : xp pe with
            | none => simp [extParseChildren, hact, henv, hpe2, hxp2]
            | some fmt =>
              have htail := ih { ext with environment :=
                ext.environment ++ [fmt] } ⟨d, hrest, hbad⟩
              simp [extParseChildren, hact, henv, hpe2, hxp2, htail]
        · have htail := ih ext ⟨d, hrest, hbad⟩
          simp [extParseChildren, hact, henv, htail]

/-- A bad action/environment child fails the whole extension build. -/
theorem extParseOne_none (xp : String → Option String) (node : XmlNode)
    (name : String) (etype : Int)
    (h : ∃ c ∈ node.children, extChildBad xp c) :
    extParseOne xp node name etype = none := by
  unfold extParseOne
  cases hpc : xml_node_get_child node "pidfile" with
  | none =>
    simp only [hpc]
    exact extParseChildren_none xp node.children _ h
  | some pc =>
    cases hpv : xml_node_get_attr pc "path" with
    | none =>
      simp only [hpc, hpv]
      exact extParseChildren_none xp node.children _ h
    | some pv =>
      cases hxp : xp pv with
      | none => simp [hpc, hpv, hxp]
      | some fmt =>
        simp only [hpc, hpv, hxp]
        exact extParseChildren_none xp node.children _ h

/-- The pidfile path expression of this extension node fails to parse:
it has a `<pidfile>` child with a `path` attribute whose expression the
xpath parser rejects (config.c:343-347, `return -1`). -/
def extPidfileBad (xp : String → Option String) (n : XmlNode) : Prop :=
  ∃ pc pv, xml_node_get_child n "pidfile" = some pc ∧
    xml_node_get_attr pc "path" = some pv ∧ xp pv = none

/-- An unparseable pidfile path expression fails the extension build. -/
theorem extParseOne_none_pidfile (xp : String → Option String) (node : XmlNode)
    (name : String) (etype : Int) (h : extPidfileBad xp node) :
    extParseOne xp node name etype = none := by
  obtain ⟨pc, pv, hpc, hpv, hxp⟩ := h
  unfold extParseOne
  simp [hpc, hpv, hxp]

/-- Either failure inside one extension node — an unparseable pidfile
expression or a bad action/environment child — fails the build. -/
theorem extParseOne_none_of_bad (xp : String → Option String) (node : XmlNode)
    (name : String) (etype : Int)
    (h : extPidfileBad xp node ∨ ∃ c ∈ node.children, extChildBad xp c) :
    extParseOne xp node name etype = none :=
  h.elim (extParseOne_none_pidfile xp node name etype)
    (extParseOne_none xp node name etype)

/-- The type requirement does not skip this extension node: either the
category needs no type mapping, or the node carries a `type` attribute the
mapping accepts. -/
def extTypeOk (mapType : Option (String → Int)) (n : XmlNode) : Prop :=
  mapType = none ∨
    ∃ mt tv, mapType = some mt ∧ xml_node_get_attr n "type" = some tv ∧ 0 ≤ mt tv

/-- An extension node that makes the configuration load fail: its `name`
attribute is missing, or it is not skipped by the type mapping and either
its pidfile path expression fails to parse or one of its
action/environment children is bad. -/
def extNodeBad (xp : String → Option String) (mapType : Option (String → Int))
    (n : XmlNode) : Prop :=
  n.name = "extension" ∧
    (xml_node_get_attr n "name" = none ∨
      (extTypeOk mapType n ∧
        (extPidfileBad xp n ∨ ∃ c ∈ n.children, extChildBad xp c)))

/-- A bad extension node anywhere in the category fails the node loop,
whatever was accumulated so far. -/
theorem extParseNodes_none (xp : String → Option String)
    (mapType : Option (String → Int)) (nodes : List XmlNode) :
    ∀ acc : List NiExtension, (∃ n ∈ nodes, extNodeBad xp mapType n) →
      extParseNodes xp mapType nodes acc = none := by
  induction nodes with
  | nil =>
    rintro acc ⟨n, hn, _⟩
    exact absurd hn (List.not_mem_nil n)
  | cons n rest ih =>
    rintro acc ⟨m, hm, hbad⟩
    rcases List.mem_cons.mp hm with rfl | hrest
    · obtain ⟨hext, hbody⟩ := hbad
      rcases hbody with hnone | ⟨htype, hfail⟩
      · simp [extParseNodes, hext, hnone]
      · cases hname : xml_node_get_attr m "name" with
        | none => simp [extParseNodes, hext, hname]
        | some name =>
          rcases htype with hmt | ⟨mt, tv, hmt, htv, hge⟩
          · subst hmt
            simp [extParseNodes, hext, hname, extParseOne_none_of_bad xp m name 0 hfail]
          · subst hmt
            have hlt : ¬ (mt tv < 0) := by omega
            simp [extParseNodes, hext, hname, htv, hlt,
              extParseOne_none_of_bad xp m name (mt tv) hfail]
    · by_cases hext : n.name = "extension"
      · cases hname : xml_node_get_attr n "name" with
        | none => simp [extParseNodes, hext, hname]
        | some name =>
          cases mapType with
          | none =>
            cases hone : extParseOne xp n name 0 with
            | none => simp [extParseNodes, hext, hname, hone]
            | some e =>
              have htail := ih (acc ++ [e]) ⟨m, hrest, hbad⟩
              simp [extParseNodes, hext, hname, hone, htail]
          | some mt =>
            cases htv : xml_node_get_attr n "type" with
            | none => simp [extParseNodes, hext, hname, htv]
            | some tv =>
              by_cases hlt : mt tv < 0
              · have htail := ih acc ⟨m, hrest, hbad⟩
                simp [extParseNodes, hext, hname, htv, hlt, htail]
              · cases hone : extParseOne xp n name (mt tv) with
                | none => simp [extParseNodes, hext, hname, htv, hlt, hone]
                | some e =>
                  have htail := ih (acc ++ [e]) ⟨m, hrest, hbad⟩
                  simp [extParseNodes, hext, hname, htv, hlt, hone, htail]
      · have htail := ih acc ⟨m, hrest, hbad⟩
        simp [extParseNodes, hext, htail]

/-- A category of the configuration whose extension list fails to load:
the category child exists and holds a bad extension node. -/
def extSectionBad (xp : String → Option String) (mapType : Option (String → Int))
    (node : XmlNode) (exclass : String) : Prop :=
  ∃ sub, xml_node_get_child node exclass = some sub ∧
    ∃ n ∈ sub.children, extNodeBad xp mapType n

/-- A bad category fails `ni_config_parse_extensions` for any incoming
list. -/
theorem config_parse_extensions_none (xp : String → Option String)
    (mapType : Option (String → Int)) (list : List NiExtension)
    (node : XmlNode) (exclass : String)
    (h : extSectionBad xp mapType node exclass) :
    ni_config_parse_extensions xp mapType list node exclass = none := by
  obtain ⟨sub, hsub, hbad⟩ := h
  unfold ni_config_parse_extensions
  rw [hsub]
  exact extParseNodes_none xp mapType sub.children list hbad

/-- A bad category fails the extensions phase for any configuration. -/
theorem configExtensionsPhase_none (ext : ConfigExternals) (node : XmlNode)
    (conf2 : NiConfig)
    (hbad : extSectionBad ext.xp (some ext.addrconfNameToType) node "addrconf"
          ∨ extSectionBad ext.xp (some ext.linktypeNameToType) node "linktype"
          ∨ extSectionBad ext.xp none node "api") :
    configExtensionsPhase ext node conf2 = none := by
  unfold configExtensionsPhase
  simp only []
  rcases hbad with h | h | h
  · rw [config_parse_extensions_none ext.xp (some ext.addrconfNameToType)
      conf2.addrconf_extensions node "addrconf" h]
  · cases h1 : ni_config_parse_extensions ext.xp (some ext.addrconfNameToType)
        conf2.addrconf_extensions node "addrconf" with
    | none => simp [h1]
    | some ae =>
      simp only [h1]
      rw [config_parse_extensions_none ext.xp (some ext.linktypeNameToType)
        conf2.linktype_extensions node "linktype" h]
  · cases h1 : ni_config_parse_extensions ext.xp (some ext.addrconfNameToType)
        conf2.addrconf_extensions node "addrconf" with
    | none => simp [h1]
    | some ae =>
      simp only [h1]
      cases h2 : ni_config_parse_extensions ext.xp (some ext.linktypeNameToType)
          conf2.linktype_extensions node "linktype" with
      | none => simp [h2]
      | some le =>
        simp only [h2]
        rw [config_parse_extensions_none ext.xp none
          conf2.api_extensions node "api" h]

/-- C7: whenever a required attribute is missing (an extension element
without `name`, an environment element without `putenv`, an action element
without `name`) or an expression fails to parse (a pidfile `path`, an
action `command`, or an environment `putenv` expression), `ni_config_parse`
returns failure and no configuration object is produced (the C code frees
the partially built one at the `failed` label). -/
theorem config_load_is_atomic (ext : ConfigExternals) (root node : XmlNode)
    (hc : xml_node_get_child root "config" = some node)
    (hbad : extSectionBad ext.xp (some ext.addrconfNameToType) node "addrconf"
          ∨ extSectionBad ext.xp (some ext.linktypeNameToType) node "linktype"
          ∨ extSectionBad ext.xp none node "api") :
    ni_config_parse ext (some root) = none := by
  unfold ni_config_parse
  simp only [hc]
  cases hh : configHeadPhase ext node with
  | none => simp [hh]
  | some conf2 =>
    simp only [hh]
    exact configExtensionsPhase_none ext node conf2 hbad

/-- A concrete set of externals for the witnesses: an xpath parser that
accepts everything, an address parser that accepts everything, and type
maps that accept everything. -/
def extsEx : ConfigExternals :=
  { xp := fun s => some s, parseAddr := fun _ => true
  , nameToUpdateTarget := fun _ => -1
  , addrconfNameToType := fun _ => 0, linktypeNameToType := fun _ => 0
  , systemUpdateCaps := UINT_ALL_BITS }

/-- A `<config>` whose linktype section holds an extension without a
`name` attribute. -/
def configMissingNameEx : XmlNode :=
  .mk "config" [] none
    [.mk "linktype" [] none [.mk "extension" [("type", "eth")] none []]]

/-- A document root around `configMissingNameEx`. -/
def rootMissingNameEx : XmlNode := .mk "root" [] none [configMissingNameEx]

/-- A `<config>` whose api section holds an extension with an
`<environment>` child without a `putenv` attribute. -/
def configMissingPutenvEx : XmlNode :=
  .mk "config" [] none
    [.mk "api" [] none
      [.mk "extension" [("name", "foo")] none [.mk "environment" [] none []]]]

/-- A document root around `configMissingPutenvEx`. -/
def rootMissingPutenvEx : XmlNode := .mk "root" [] none [configMissingPutenvEx]

/-- Externals whose xpath parser rejects every expression. -/
def extsNoneXpEx : ConfigExternals := { extsEx with xp := fun _ => none }

/-- A `<config>` whose api section holds an extension whose pidfile path
expression will fail to parse. -/
def configBadPidfileEx : XmlNode :=
  .mk "config" [] none
    [.mk "api" [] none
      [.mk "extension" [("name", "foo")] none
        [.mk "pidfile" [("path", "/run/foo.pid")] none []]]]

/-- A document root around `configBadPidfileEx`. -/
def rootBadPidfileEx : XmlNode := .mk "root" [] none [configBadPidfileEx]

/-- C7 witness: three concrete documents — one with an extension missing
its `name`, one with an environment element missing `putenv`, and one
whose pidfile path expression fails to parse — make the whole load fail
with no configuration produced. -/
theorem config_load_is_atomic_witness :
    xml_node_get_child rootMissingNameEx "config" = some configMissingNameEx ∧
    ni_config_parse extsEx (some rootMissingNameEx) = none ∧
    ni_config_parse extsEx (some rootMissingPutenvEx) = none ∧
    ni_config_parse extsNoneXpEx (some rootBadPidfileEx) = none :=
  ⟨rfl,
    config_load_is_atomic extsEx rootMissingNameEx configMissingNameEx rfl
      (Or.inr (Or.inl
        ⟨.mk "linktype" [] none [.mk "extension" [("type", "eth")] none []], rfl,
          .mk "extension" [("type", "eth")] none [],
          List.mem_singleton_self _, rfl, Or.inl rfl⟩)),
    config_load_is_atomic extsEx rootMissingPutenvEx configMissingPutenvEx rfl
      (Or.inr (Or.inr
        ⟨.mk "api" [] none
            [.mk "extension" [("name", "foo")] none [.mk "environment" [] none []]], rfl,
          .mk "extension" [("name", "foo")] none [.mk "environment" [] none []],
          List.mem_singleton_self _, rfl,
          Or.inr ⟨Or.inl rfl,
            Or.inr ⟨.mk "environment" [] none [], List.mem_singleton_self _,
              Or.inr (Or.inr (Or.inl ⟨rfl, rfl⟩))⟩⟩⟩)),
    config_load_is_atomic extsNoneXpEx rootBadPidfileEx configBadPidfileEx rfl
      (Or.inr (Or.inr
        ⟨.mk "api" [] none
            [.mk "extension" [("name", "foo")] none
              [.mk "pidfile" [("path", "/run/foo.pid")] none []]], rfl,
          .mk "extension" [("name", "foo")] none
            [.mk "pidfile" [("path", "/run/foo.pid")] none []],
          List.mem_singleton_self _, rfl,
          Or.inr ⟨Or.inl rfl,
            Or.inl ⟨.mk "pidfile" [("path", "/run/foo.pid")] none [],
              "/run/foo.pid", rfl, rfl, rfl⟩⟩⟩))⟩

end Wicked
